import Mathlib

/-!
Verification of the kelvin status-line generator (Rust) against its
natural-language specification, via a shallow embedding of the relevant
source functions in Lean 4.

Conventions used throughout:
* Rust `u64`/`u16`/`u8` values are `Nat` with explicit `% 2^w` wrapping where
  overflow can matter (release-mode Rust wraps).
* Rust `f32`/`f64` arithmetic is modelled over exact rationals.  For `f32`
  (the `SensorMap` pipeline) the model `F32` also carries the IEEE special
  values `inf`, `neginf`, `nan`, because division by zero occurs there; zero
  is modelled unsigned (the only zero divisors that arise come from
  subtraction of equal finite operands, which IEEE rounds to `+0`).  Rounding
  of real results to representable floats is not modelled; every concrete
  value appearing in a theorem below is exactly representable and the
  operations on it are exact.
* Fallible Rust code (`Result`, panics) becomes `Except` with an explicit
  error type; a Rust panic (failed `assert!`, out-of-bounds index, `todo!()`)
  is an explicit `.panic` / `.todoPanic` error value.
* Strings are `List Char` (`Str` below) so that substring/parsing functions
  stay structurally recursive and kernel-computable.
-/

abbrev Str := List Char

/-! ## F32: exact-rational model of Rust `f32` with IEEE special values -/

/-- Model of a Rust `f32`: a finite value (exact rational), an infinity, or
NaN.  Signed zero is collapsed to `fin 0`; see the header comment. -/
inductive F32 where
  | fin (q : ℚ)
  | inf
  | neginf
  | nan
deriving DecidableEq

/-- IEEE subtraction on the `F32` model. -/
def F32.sub : F32 → F32 → F32
  | nan, _ => nan
  | _, nan => nan
  | fin a, fin b => fin (a - b)
  | fin _, inf => neginf
  | fin _, neginf => inf
  | inf, fin _ => inf
  | inf, neginf => inf
  | inf, inf => nan
  | neginf, fin _ => neginf
  | neginf, inf => neginf
  | neginf, neginf => nan

/-- IEEE addition on the `F32` model. -/
def F32.add : F32 → F32 → F32
  | nan, _ => nan
  | _, nan => nan
  | fin a, fin b => fin (a + b)
  | fin _, inf => inf
  | inf, fin _ => inf
  | inf, inf => inf
  | fin _, neginf => neginf
  | neginf, fin _ => neginf
  | neginf, neginf => neginf
  | inf, neginf => nan
  | neginf, inf => nan

/-- IEEE multiplication on the `F32` model. -/
def F32.mul : F32 → F32 → F32
  | nan, _ => nan
  | _, nan => nan
  | fin a, fin b => fin (a * b)
  | fin a, inf => if 0 < a then inf else if a < 0 then neginf else nan
  | fin a, neginf => if 0 < a then neginf else if a < 0 then inf else nan
  | inf, fin b => if 0 < b then inf else if b < 0 then neginf else nan
  | neginf, fin b => if 0 < b then neginf else if b < 0 then inf else nan
  | inf, inf => inf
  | inf, neginf => neginf
  | neginf, inf => neginf
  | neginf, neginf => inf

/-- IEEE division on the `F32` model.  A finite nonzero value divided by
(unsigned) zero is the correspondingly signed infinity; `0/0` is NaN. -/
def F32.div : F32 → F32 → F32
  | nan, _ => nan
  | _, nan => nan
  | fin a, fin b =>
      if b = 0 then (if 0 < a then inf else if a < 0 then neginf else nan)
      else fin (a / b)
  | fin _, inf => fin 0
  | fin _, neginf => fin 0
  | inf, fin b => if b < 0 then neginf else inf
  | neginf, fin b => if b < 0 then inf else neginf
  | inf, inf => nan
  | inf, neginf => nan
  | neginf, inf => nan
  | neginf, neginf => nan

/-- IEEE `<` on the `F32` model; any comparison involving NaN is false. -/
def F32.lt : F32 → F32 → Bool
  | nan, _ => false
  | _, nan => false
  | fin a, fin b => decide (a < b)
  | fin _, inf => true
  | fin _, neginf => false
  | inf, _ => false
  | neginf, neginf => false
  | neginf, _ => true

/-- IEEE `≤` on the `F32` model; any comparison involving NaN is false. -/
def F32.le : F32 → F32 → Bool
  | nan, _ => false
  | _, nan => false
  | fin a, fin b => decide (a ≤ b)
  | fin _, inf => true
  | fin _, neginf => false
  | inf, inf => true
  | inf, _ => false
  | neginf, _ => true

/-- Errors that the range-map pipeline can produce.  `panic` models a Rust
panic (here: the `assert!(min <= max)` inside `f32::clamp`).  `invalidRange`
is the error kind named by the specification; the source never produces it,
which the C6 theorems make precise. -/
inductive RErr where
  | panic
  | invalidRange
deriving DecidableEq

/-- Rust `f32::clamp(self, min, max)`: panics unless `min <= max` (NaN bounds
also panic, since the comparison is then false); a NaN input value passes
through unchanged. -/
def F32.clamp (x lo hi : F32) : Except RErr F32 :=
  if F32.le lo hi = false then .error .panic
  else
    let y := if F32.lt x lo then lo else x
    let z := if F32.lt hi y then hi else y
    .ok z

/-! ## SensorMap (config.rs:6-22) -/

/-- Range-map configuration (config.rs:6-13).  Lean tuple projections `.1`
and `.2` correspond to Rust's `.0` and `.1`. -/
structure SensorMap where
  input : F32 × F32
  output : F32 × F32
deriving DecidableEq

/-- Shallow embedding of `SensorMap::map` (config.rs:16-21):
`((value - input.0) * (output.1 - output.0) / (input.1 - input.0)
  + input.0).clamp(output.0, output.1)`.
Note the source adds `input.0` (not `output.0`) after the division. -/
def SensorMap.map (m : SensorMap) (value : F32) : Except RErr F32 :=
  F32.clamp
    (F32.add
      (F32.div
        (F32.mul (F32.sub value m.input.1) (F32.sub m.output.2 m.output.1))
        (F32.sub m.input.2 m.input.1))
      m.input.1)
    m.output.1 m.output.2

/-- Exact-rational clamp used to state spec formulas (and the f64 clamp in
the CPU pipeline, whose bounds `0 ≤ 100` never panic). -/
def qclamp (x lo hi : ℚ) : ℚ :=
  if x < lo then lo else if hi < x then hi else x

/-- Modelled from the spec (§4.1): the range-map formula the specification
claims, `(value - in_min) * (out_max - out_min) / (in_max - in_min)
+ out_min`, clamped to the declared output bounds.  Stated over exact
rationals; used only to compare against the source's `SensorMap.map`. -/
def specMapFormula (v in0 in1 out0 out1 : ℚ) : ℚ :=
  qclamp ((v - in0) * (out1 - out0) / (in1 - in0) + out0) out0 out1

/-- Claim C2: the source's `map` diverges from the claimed formula whenever
`in_min ≠ out_min`: with input range (10,20), output range (0,100) and
value 15, the code returns 60 (it adds `in_min` = 10 after the division,
config.rs:19) while the claimed formula gives 50. -/
theorem C2_map_formula_failing_input :
    SensorMap.map ⟨(F32.fin 10, F32.fin 20), (F32.fin 0, F32.fin 100)⟩ (F32.fin 15)
      = .ok (F32.fin 60)
    ∧ specMapFormula 15 10 20 0 100 = 50
    ∧ (60 : ℚ) ≠ 50 := by
  refine ⟨?_, ?_, by norm_num⟩
  · simp only [SensorMap.map, F32.sub, F32.mul, F32.div, F32.add, F32.clamp, F32.le, F32.lt]
    norm_num
  · simp only [specMapFormula, qclamp]
    norm_num

/-- Claim C6, counterexample: with the degenerate input range (5,5) the code
does not fail with `InvalidRange`; it performs the IEEE division by zero
(yielding +∞ here) and returns the clamped upper output bound. -/
theorem C6_no_invalid_range_counterexample :
    SensorMap.map ⟨(F32.fin 5, F32.fin 5), (F32.fin 0, F32.fin 100)⟩ (F32.fin 7)
      = .ok (F32.fin 100) := by
  simp only [SensorMap.map, F32.sub, F32.mul, F32.div, F32.add, F32.clamp, F32.le, F32.lt]
  norm_num

/-- Claim C6, amended: for every value and every degenerate input range
(`in_max = in_min`, finite) with ordered finite output bounds, `map` succeeds
(returns `.ok` of some value — +∞/−∞/NaN fed through the clamp); it never
produces an `InvalidRange` error. -/
theorem C6_degenerate_range_returns_ok (v a o0 o1 : ℚ) (h : o0 ≤ o1) :
    ∃ r, SensorMap.map ⟨(F32.fin a, F32.fin a), (F32.fin o0, F32.fin o1)⟩ (F32.fin v)
      = .ok r := by
  have hself : F32.sub (F32.fin a) (F32.fin a) = F32.fin 0 := by
    simp [F32.sub]
  have hnum : F32.mul (F32.sub (F32.fin v) (F32.fin a)) (F32.sub (F32.fin o1) (F32.fin o0))
      = F32.fin ((v - a) * (o1 - o0)) := by
    simp [F32.sub, F32.mul]
  unfold SensorMap.map
  simp only [hself, hnum]
  rcases lt_trichotomy ((v - a) * (o1 - o0)) 0 with hlt | heq | hgt
  · refine ⟨F32.fin o0, ?_⟩
    have h1 : F32.div (F32.fin ((v - a) * (o1 - o0))) (F32.fin 0) = F32.neginf := by
      simp [F32.div, hlt, not_lt.mpr hlt.le]
    rw [h1]
    simp [F32.add, F32.clamp, F32.le, F32.lt, h, not_lt.mpr h]
  · refine ⟨F32.nan, ?_⟩
    have h1 : F32.div (F32.fin ((v - a) * (o1 - o0))) (F32.fin 0) = F32.nan := by
      simp [F32.div, heq]
    rw [h1]
    simp [F32.add, F32.clamp, F32.le, F32.lt, h]
  · refine ⟨F32.fin o1, ?_⟩
    have h1 : F32.div (F32.fin ((v - a) * (o1 - o0))) (F32.fin 0) = F32.inf := by
      simp [F32.div, hgt, not_lt.mpr hgt.le]
    rw [h1]
    simp [F32.add, F32.clamp, F32.le, F32.lt, h]

/-- Witness for C6: concrete instance of the amended claim. -/
theorem C6_degenerate_range_returns_ok_witness :
    (0 : ℚ) ≤ 100
    ∧ ∃ r, SensorMap.map ⟨(F32.fin 3, F32.fin 3), (F32.fin 0, F32.fin 100)⟩ (F32.fin 8)
        = .ok r :=
  ⟨by norm_num, C6_degenerate_range_returns_ok 8 3 0 100 (by norm_num)⟩

/-- Claim C9, counterexample: with inverted output bounds (100, 0) the code
panics (Rust's `f32::clamp` asserts `min <= max`) instead of returning a
clamped result. -/
theorem C9_inverted_bounds_counterexample :
    SensorMap.map ⟨(F32.fin 0, F32.fin 10), (F32.fin 100, F32.fin 0)⟩ (F32.fin 5)
      = .error .panic := by
  simp only [SensorMap.map, F32.sub, F32.mul, F32.div, F32.add, F32.clamp, F32.le, F32.lt]
  norm_num

/-- Claim C9, amended: for every value and every configuration whose declared
output bounds are inverted (`out_min > out_max`, both finite), `map` panics in
the final clamp; it does not return a value. -/
theorem C9_inverted_bounds_panics (value i0 i1 : F32) (o0 o1 : ℚ) (h : o1 < o0) :
    SensorMap.map ⟨(i0, i1), (F32.fin o0, F32.fin o1)⟩ value = .error .panic := by
  unfold SensorMap.map
  have hle : F32.le (F32.fin o0) (F32.fin o1) = false := by
    simp [F32.le, not_le.mpr h]
  simp [F32.clamp, hle]

/-- Witness for C9: concrete instance of the amended claim. -/
theorem C9_inverted_bounds_panics_witness :
    (0 : ℚ) < 255
    ∧ SensorMap.map ⟨(F32.fin 0, F32.fin 1024), (F32.fin 255, F32.fin 0)⟩ (F32.fin 512)
        = .error .panic :=
  ⟨by norm_num,
    C9_inverted_bounds_panics (F32.fin 512) (F32.fin 0) (F32.fin 1024) 255 0 (by norm_num)⟩

/-! ## CPUUsageWidget (main.rs:45-141) -/

-- There is no `DecidableEq` instance for `Except` in scope by default;
-- derive one so concrete runs can be settled by `decide`.
deriving instance DecidableEq for Except

/-- Error kinds for the CPU/value pipelines.  `ioError`, `parseError` and
`lookupError` model the anyhow error contexts the source attaches
(main.rs:76/90, config.rs:115/122/128); `panic` models a Rust panic
(out-of-bounds index / failed assertion). -/
inductive KErr where
  | ioError
  | parseError
  | lookupError
  | panic
deriving DecidableEq

/-- 2^64, the wrap-around modulus of Rust `u64` in release builds. -/
def u64size : ℕ := 2 ^ 64

theorem u64size_eq : u64size = 18446744073709551616 := by norm_num [u64size]

/-- Wrapping `u64` subtraction (valid for operands below 2^64). -/
def wsub (a b : ℕ) : ℕ := (a + u64size - b) % u64size

/-- Wrapping `u64` sum, as produced by `usage.iter().sum::<u64>()`. -/
def sum64 (l : List ℕ) : ℕ := l.sum % u64size

theorem wsub_eq {a b : ℕ} (h : b ≤ a) (ha : a < u64size) : wsub a b = a - b := by
  rw [u64size_eq] at ha
  simp only [wsub, u64size_eq]
  omega

theorem sum64_lt (l : List ℕ) : sum64 l < u64size := by
  have hu := u64size_eq
  exact Nat.mod_lt _ (by omega)

/-- Numeric value of a list of decimal digit characters. -/
def digitsToNat (s : Str) : ℕ := s.foldl (fun acc c => 10 * acc + (c.toNat - 48)) 0

/-- Rust `str::parse::<u64>()`: optional leading `+`, then one or more
decimal digits, value below 2^64. -/
def parseU64 (s : Str) : Option ℕ :=
  let t := match s with
    | '+' :: r => r
    | r => r
  if t ≠ [] ∧ t.all Char.isDigit then
    let v := digitsToNat t
    if v < u64size then some v else none
  else none

/-- Rust `str::trim`: strip leading and trailing whitespace. -/
def trim (s : Str) : Str :=
  ((s.dropWhile Char.isWhitespace).reverse.dropWhile Char.isWhitespace).reverse

/-- Rust `str::split(" ")`: split at every single space, keeping empty
segments produced by adjacent separators. -/
def splitSpace : Str → List Str
  | [] => [[]]
  | c :: t =>
      if c = ' ' then [] :: splitSpace t
      else
        match splitSpace t with
        | h :: r => (c :: h) :: r
        | [] => [[c]]

/-- Rust `collect::<Result<Vec<_>>>()` over the parsed fields: first parse
failure aborts with a `ParseError`. -/
def collectParse : List Str → Except KErr (List ℕ)
  | [] => .ok []
  | x :: xs =>
      match parseU64 x with
      | none => .error .parseError
      | some v =>
          match collectParse xs with
          | .ok vs => .ok (v :: vs)
          | .error e => .error e

/-- Shallow embedding of `CPUUsageWidget::get_cpu_usage` (main.rs:71-93),
taking the first `/proc/stat` line as input (the file read itself is
external I/O): trim, split on single spaces, skip the leading `cpu` label,
skip leading empty fields caused by the double space in `/proc/stat`, then
parse every remaining field as `u64`. -/
def get_cpu_usage (line : Str) : Except KErr (List ℕ) :=
  collectParse (((splitSpace (trim line)).drop 1).dropWhile List.isEmpty)

/-- State of `CPUUsageWidget` (main.rs:45-50).  The `cpu_count: OnceCell<u8>`
is modelled as an injected parameter of `getCore`, since it is filled from an
external `nproc` call and never changes afterwards. -/
structure CPUUsageWidget where
  last_idle : ℕ
  last_sum : ℕ
deriving DecidableEq

/-- `CPUUsageWidget::new` (main.rs:95-101): zero baseline, core count unset. -/
def CPUUsageWidget.new : CPUUsageWidget := ⟨0, 0⟩

/-- Core of `CPUUsageWidget::refresh` (main.rs:103-110) after the counters
have been read and parsed: `usage[3]` (a panic when fewer than four fields
parsed) becomes the idle baseline, the wrapping sum of all fields the total
baseline. -/
def CPUUsageWidget.refreshCore (_w : CPUUsageWidget) (usage : List ℕ) :
    Except KErr CPUUsageWidget :=
  match usage[3]? with
  | none => .error .panic
  | some idle => .ok ⟨idle, sum64 usage⟩

/-- Core of `CPUUsageWidget::get` (main.rs:112-129) after the counters have
been read and parsed.  Returns the computed value together with the updated
baseline.  `usage = (1000 * (delta_total - delta_idle + 5)) / 10` in
wrapping `u64` arithmetic, then `(usage as f64 / cpu_count as f64) * 0.01`
clamped to `[0, 100]`, modelled over exact rationals. -/
def CPUUsageWidget.getCore (w : CPUUsageWidget) (curr : List ℕ) (cpu_count : ℕ) :
    Except KErr (ℚ × CPUUsageWidget) :=
  match curr[3]? with
  | none => .error .panic
  | some idle =>
      let sum := sum64 curr
      let delta_total := wsub sum w.last_sum
      let delta_idle := wsub idle w.last_idle
      let usage := (1000 * ((wsub delta_total delta_idle + 5) % u64size) % u64size) / 10
      let value : ℚ := ((usage : ℚ) / (cpu_count : ℚ)) * (1 / 100)
      .ok (qclamp value 0 100, ⟨idle, sum⟩)

/-- `CPUUsageWidget::refresh` (main.rs:103-110) on a given counter line. -/
def CPUUsageWidget.refresh (w : CPUUsageWidget) (line : Str) : Except KErr CPUUsageWidget :=
  match get_cpu_usage line with
  | .error e => .error e
  | .ok usage => w.refreshCore usage

/-- `CPUUsageWidget::get` (main.rs:112-129) on a given counter line and core
count. -/
def CPUUsageWidget.get (w : CPUUsageWidget) (line : Str) (cpu_count : ℕ) :
    Except KErr (ℚ × CPUUsageWidget) :=
  match get_cpu_usage line with
  | .error e => .error e
  | .ok curr => w.getCore curr cpu_count

/-- Modelled from the spec (§4.3, claim C1): the usage value the
specification claims `get()` returns, `(1 - Δidle/Δtotal)` scaled to 0-100,
divided by the core count, clamped to `[0, 100]`. -/
def claimedCpuUsage (sum_prev idle_prev sum_now idle_now cpu : ℚ) : ℚ :=
  qclamp ((1 - (idle_now - idle_prev) / (sum_now - sum_prev)) * 100 / cpu) 0 100

/-- Claim C1, counterexample: from the zero baseline, counters
`[50, 0, 50, 100]` (sum 200, idle 100, so Δtotal = 200, Δidle = 100) with
one core make `get` return 100 (pre-clamp 105), while the claimed formula
`(1 - 100/200) * 100 / 1` gives 50. -/
theorem C1_formula_counterexample :
    CPUUsageWidget.new.getCore [50, 0, 50, 100] 1 = .ok (100, ⟨100, 200⟩)
    ∧ claimedCpuUsage 0 0 200 100 1 = 50
    ∧ (100 : ℚ) ≠ 50 := by
  refine ⟨?_, ?_, by norm_num⟩
  · simp only [CPUUsageWidget.new, CPUUsageWidget.getCore, sum64, wsub, u64size, List.sum]
    norm_num [qclamp]
  · simp only [claimedCpuUsage, qclamp]
    norm_num

/-- Claim C1, amended: for a stored baseline and a fresh counter sample with
at least four fields and non-decreasing counters (all within realistic `u64`
bounds), `get` returns
`clamp((Δtotal - Δidle + 5) / core_count, 0, 100)` — it never divides by
`Δtotal` — and updates the baseline to the just-read sample.  Stated with the
float steps in exact-real semantics. -/
theorem C1_get_actual_formula (w : CPUUsageWidget) (curr : List ℕ) (cpu_count idle : ℕ)
    (hidx : curr[3]? = some idle)
    (hli : w.last_idle ≤ idle)
    (hls : w.last_sum ≤ sum64 curr)
    (hdt : sum64 curr - w.last_sum < 2 ^ 45)
    (hdi : idle - w.last_idle ≤ sum64 curr - w.last_sum)
    (hidle : idle < u64size)
    (hcpu : 1 ≤ cpu_count) :
    w.getCore curr cpu_count =
      .ok (qclamp ((((sum64 curr - w.last_sum) - (idle - w.last_idle) + 5 : ℕ) : ℚ)
              / (cpu_count : ℚ)) 0 100,
           ⟨idle, sum64 curr⟩) := by
  have hu := u64size_eq
  have h45 : (2 : ℕ) ^ 45 = 35184372088832 := by norm_num
  have hsumlt : sum64 curr < u64size := sum64_lt curr
  have h1 : wsub (sum64 curr) w.last_sum = sum64 curr - w.last_sum := wsub_eq hls hsumlt
  have h2 : wsub idle w.last_idle = idle - w.last_idle := wsub_eq hli hidle
  have h3 : wsub (sum64 curr - w.last_sum) (idle - w.last_idle)
      = (sum64 curr - w.last_sum) - (idle - w.last_idle) := by
    refine wsub_eq hdi ?_
    omega
  have h4 : ((sum64 curr - w.last_sum) - (idle - w.last_idle) + 5) % u64size
      = (sum64 curr - w.last_sum) - (idle - w.last_idle) + 5 := by
    refine Nat.mod_eq_of_lt ?_
    have : (sum64 curr - w.last_sum) - (idle - w.last_idle) ≤ sum64 curr - w.last_sum :=
      Nat.sub_le _ _
    omega
  have h5 : (1000 * ((sum64 curr - w.last_sum) - (idle - w.last_idle) + 5)) % u64size
      = 1000 * ((sum64 curr - w.last_sum) - (idle - w.last_idle) + 5) := by
    refine Nat.mod_eq_of_lt ?_
    have : (sum64 curr - w.last_sum) - (idle - w.last_idle) ≤ sum64 curr - w.last_sum :=
      Nat.sub_le _ _
    omega
  have h6 : (1000 * ((sum64 curr - w.last_sum) - (idle - w.last_idle) + 5)) / 10
      = 100 * ((sum64 curr - w.last_sum) - (idle - w.last_idle) + 5) := by
    rw [show 1000 * ((sum64 curr - w.last_sum) - (idle - w.last_idle) + 5)
        = 10 * (100 * ((sum64 curr - w.last_sum) - (idle - w.last_idle) + 5)) by ring]
    exact Nat.mul_div_cancel_left _ (by norm_num)
  have h7 : ((100 * ((sum64 curr - w.last_sum) - (idle - w.last_idle) + 5) : ℕ) : ℚ)
        / (cpu_count : ℚ) * (1 / 100)
      = (((sum64 curr - w.last_sum) - (idle - w.last_idle) + 5 : ℕ) : ℚ) / (cpu_count : ℚ) := by
    push_cast
    ring
  simp only [CPUUsageWidget.getCore, hidx, h1, h2, h3, h4, h5, h6, h7]

/-- Witness for C1: concrete instance of the amended claim.  Baseline
(idle 100, sum 200), counters `[150, 10, 90, 150]` (sum 400, idle 150), two
cores: Δtotal = 200, Δidle = 50, result `(200 - 50 + 5)/2 = 77.5`. -/
theorem C1_get_actual_formula_witness :
    CPUUsageWidget.getCore ⟨100, 200⟩ [150, 10, 90, 150] 2 = .ok (155 / 2, ⟨150, 400⟩) := by
  have h := C1_get_actual_formula ⟨100, 200⟩ [150, 10, 90, 150] 2 150
    (by rfl)
    (by norm_num)
    (by norm_num [sum64, u64size])
    (by norm_num [sum64, u64size])
    (by norm_num [sum64, u64size])
    (by norm_num [u64size])
    (by norm_num)
  rw [h]
  norm_num [sum64, u64size, qclamp]

/-- Claim C5: on the short counter line `"cpu 1 2 3"` (three numeric fields)
both `refresh` and `get` fail with the model's `panic` — parsing succeeds
with `[1, 2, 3]` and the unchecked `usage[3]` index (main.rs:106/114) is out
of bounds — not with a `ParseError` as the claim states. -/
theorem C5_short_line_panics :
    CPUUsageWidget.new.refresh ("cpu 1 2 3".toList) = .error KErr.panic
    ∧ CPUUsageWidget.new.get ("cpu 1 2 3".toList) 1 = .error KErr.panic
    ∧ KErr.panic ≠ KErr.parseError := by
  refine ⟨by decide, by decide, by decide⟩

/-! ## Repeating-mode poll loop: tracker operation order (main.rs:263-288) -/

/-- Operations the poll loop performs on the CPU tracker. -/
inductive TrackerOp where
  | opGet
  | opRefresh
deriving DecidableEq

/-- Tracker operations of one loop iteration, read off main.rs:267-287:
`update_format` calls the widget's `value()` — which calls `get()`
(main.rs:133-136) — while the frame is rendered, and only afterwards does
the update pass call `refresh()` (main.rs:138-140, 276-278). -/
def tickTrackerOps : List TrackerOp := [TrackerOp.opGet, TrackerOp.opRefresh]

/-- Tracker operations of the first `n` loop iterations.  There is no seeding
call before the loop: main.rs builds the widget with `CPUUsageWidget::new()`
(main.rs:243) and enters the loop directly (main.rs:267). -/
def repeatingTrackerOps : ℕ → List TrackerOp
  | 0 => []
  | n + 1 => tickTrackerOps ++ repeatingTrackerOps n

/-- Apply one tracker operation to the tracker state, consuming one counter
sample (each operation re-reads `/proc/stat`). -/
def applyTrackerOp (w : CPUUsageWidget) (op : TrackerOp) (sample : List ℕ) (cpu : ℕ) :
    Except KErr CPUUsageWidget :=
  match op with
  | .opGet => (w.getCore sample cpu).map Prod.snd
  | .opRefresh => w.refreshCore sample

/-- Run a sequence of tracker operations over a sequence of counter samples,
recording the tracker state each operation observes; stops at the first
error (which would abort the process). -/
def runTracker : CPUUsageWidget → List TrackerOp → List (List ℕ) → ℕ →
    List (CPUUsageWidget × TrackerOp)
  | w, op :: ops, s :: ss, cpu =>
      (w, op) ::
        (match applyTrackerOp w op s cpu with
          | .ok w' => runTracker w' ops ss cpu
          | .error _ => [])
  | _, _, _, _ => []

/-- The tracker-operation trace of `n` iterations of Repeating mode, started
from the freshly constructed widget, exactly as main.rs does. -/
def repeatingRun (n : ℕ) (samples : List (List ℕ)) (cpu : ℕ) :
    List (CPUUsageWidget × TrackerOp) :=
  runTracker CPUUsageWidget.new (repeatingTrackerOps n) samples cpu

/-- Claim C7, counterexample: in Repeating mode the very first tracker
operation is a `get` — not a seeding `refresh` — and it observes the
initial zero baseline `CPUUsageWidget::new`, i.e. the first frame's reading
is computed since boot. -/
theorem C7_first_op_counterexample :
    (repeatingRun 1 [[50, 0, 50, 100], [60, 0, 60, 120]] 1).head?
      = some (CPUUsageWidget.new, TrackerOp.opGet)
    ∧ CPUUsageWidget.new = ⟨0, 0⟩ := by
  exact ⟨rfl, rfl⟩

/-- Claim C7, amended: for every positive number of iterations and every
non-empty sample sequence, the first tracker operation of Repeating mode is
`get()` against the initial zero baseline; no `refresh()` precedes the first
rendered frame. -/
theorem C7_no_seed_before_first_get (n : ℕ) (s : List ℕ) (ss : List (List ℕ)) (cpu : ℕ) :
    (repeatingRun (n + 1) (s :: ss) cpu).head? = some (⟨0, 0⟩, TrackerOp.opGet) := by
  simp [repeatingRun, repeatingTrackerOps, tickTrackerOps, runTracker, CPUUsageWidget.new]

/-! ## JSON values, path lookup, and sensor value resolution (config.rs) -/

/-- Model of `serde_json::Value`.  Numbers are decimal literals `m / 10^e`
(the form lm_sensors emits and `serde_json` echoes); objects are ordered
key-value lists with unique keys. -/
inductive JsonValue where
  | null
  | bool (b : Bool)
  | num (m : ℤ) (e : ℕ)
  | str (s : Str)
  | arr (xs : List JsonValue)
  | obj (fields : List (Str × JsonValue))

/-- First binding of a key in an object's field list. -/
def lookupField : List (Str × JsonValue) → Str → Option JsonValue
  | [], _ => none
  | (k, v) :: rest, key => if k = key then some v else lookupField rest key

/-- `serde_json::Value::get` with a string key: a member lookup on objects,
`None` on every other value (arrays are not indexable by a string key). -/
def JsonValue.get : JsonValue → Str → Option JsonValue
  | .obj fields, key => lookupField fields key
  | _, _ => none

/-- Shallow embedding of `get_by_path` (config.rs:83-97): walk the JSON value
by successive path components; a missing component aborts with `None`. -/
def get_by_path : JsonValue → List Str → Option JsonValue
  | v, [] => some v
  | v, c :: cs =>
      match v.get c with
      | some v' => get_by_path v' cs
      | none => none

/-- JSON string escaping as `serde_json` performs it for the characters that
can occur here (quote and backslash; control characters are out of scope of
the claims). -/
def escapeChar (c : Char) : Str :=
  if c = '"' then ['\\', '"'] else if c = '\\' then ['\\', '\\'] else [c]

/-- Escape every character of a string for JSON serialization. -/
def escapeStr (s : Str) : Str := (s.map escapeChar).flatten

/-- Decimal digits of a natural number. -/
def natDigits (n : ℕ) : Str := Nat.toDigits 10 n

/-- Pad a digit string on the left with zeros up to a given length. -/
def padLeftZeros (l : Str) (n : ℕ) : Str := List.replicate (n - l.length) '0' ++ l

/-- Decimal rendering of the JSON number `m / 10^e`, as `serde_json`'s
`Display` prints such literals (`42` for (42,0), `42.5` for (425,1)). -/
def numRepr (m : ℤ) (e : ℕ) : Str :=
  if e = 0 then (if m < 0 then ['-'] else []) ++ natDigits m.natAbs
  else
    let ds := padLeftZeros (natDigits m.natAbs) (e + 1)
    (if m < 0 then ['-'] else []) ++
      (ds.take (ds.length - e) ++ '.' :: ds.drop (ds.length - e))

-- Compact serialization of a JSON value, as `serde_json::Value`'s
-- `Display`/`to_string` produces it (config.rs:121 calls `.to_string()` on
-- the looked-up value).  In particular a string leaf keeps its surrounding
-- quotes.
mutual
def JsonValue.toStr : JsonValue → Str
  | .null => "null".toList
  | .bool true => "true".toList
  | .bool false => "false".toList
  | .num m e => numRepr m e
  | .str s => '"' :: (escapeStr s ++ ['"'])
  | .arr xs => '[' :: (JsonValue.arrToStr xs ++ [']'])
  | .obj fs => '\x7b' :: (JsonValue.objToStr fs ++ ['\x7d'])

def JsonValue.arrToStr : List JsonValue → Str
  | [] => []
  | [v] => v.toStr
  | v :: w :: rest => v.toStr ++ ',' :: JsonValue.arrToStr (w :: rest)

def JsonValue.objToStr : List (Str × JsonValue) → Str
  | [] => []
  | [(k, v)] => '"' :: (escapeStr k ++ '"' :: ':' :: v.toStr)
  | (k, v) :: f :: rest =>
      ('"' :: (escapeStr k ++ '"' :: ':' :: v.toStr)) ++ ',' :: JsonValue.objToStr (f :: rest)
end

/-- Decimal part of Rust float parsing: one or more digits with an optional
single decimal point (`"1."`, `".5"`, `"42.5"`, `"7"`).  Exponent notation
and the textual `inf`/`NaN` forms accepted by Rust are outside the inputs
any claim exercises and are not modelled. -/
def parseDec (s : Str) : Option ℚ :=
  let ip := s.takeWhile Char.isDigit
  let rest := s.dropWhile Char.isDigit
  match rest with
  | [] => if ip.isEmpty then none else some ((digitsToNat ip : ℕ) : ℚ)
  | c :: fp =>
      if c = '.' then
        if fp.all Char.isDigit && !(ip.isEmpty && fp.isEmpty) then
          some (((digitsToNat ip : ℕ) : ℚ) + ((digitsToNat fp : ℕ) : ℚ) / (10 ^ fp.length : ℚ))
        else none
      else none

/-- Rust `str::parse::<f32>()` on the decimal subset: optional sign, then a
decimal number.  Results are exact rationals (float rounding not
modelled). -/
def parseFloat (s : Str) : Option ℚ :=
  match s with
  | [] => none
  | c :: t =>
      if c = '+' then parseDec t
      else if c = '-' then (parseDec t).map (fun q => -q)
      else parseDec (c :: t)

/-- Display decorations of a sensor (config.rs:24-31). -/
structure SensorLabel where
  name : Str
  unit : Str
deriving DecidableEq

/-- Source backend of a sensor (config.rs:33-41). -/
inductive SensorSource where
  | file
  | sensors
deriving DecidableEq

/-- A configured sensor (config.rs:49-80).  `path` is the segment list that
`path.components()` yields in `get_by_path`. -/
structure Sensor where
  name : Str
  label : Option SensorLabel
  alarm_high : Option F32
  alarm_low : Option F32
  round : Option ℕ
  map : Option SensorMap
  source : SensorSource
  path : List Str
deriving DecidableEq

/-- Shallow embedding of `Sensor::get_value` (config.rs:111-136).  The
filesystem is injected as `readFile` (file reads are external I/O); the
`sensors` argument is the pre-fetched JSON snapshot.  The file branch trims
the contents; the sensors branch serializes the looked-up JSON value with
`to_string` and parses that text.  A configured range map is applied last;
its clamp panic propagates. -/
def Sensor.get_value (s : Sensor) (sensors : JsonValue) (readFile : List Str → Option Str) :
    Except KErr F32 :=
  match (match s.source with
    | .file =>
        (match readFile s.path with
         | some contents => Except.ok (trim contents)
         | none => Except.error KErr.ioError)
    | .sensors =>
        (match get_by_path sensors s.path with
         | some v => Except.ok v.toStr
         | none => Except.error KErr.lookupError)) with
  | .error e => .error e
  | .ok value =>
      match parseFloat value with
      | none => .error .parseError
      | some q =>
          match s.map with
          | none => .ok (F32.fin q)
          | some m =>
              match m.map (F32.fin q) with
              | .ok r => .ok r
              | .error _ => .error .panic

/-- Empty filesystem for concrete runs (no file-backed sensor involved). -/
def noFs : List Str → Option Str := fun _ => none

/-- Claim C8, counterexample: for the snapshot `{"a":{"b":"42.5"}}` and the
sensors-backed path `a/b`, which resolves to the JSON *string* leaf
`"42.5"`, resolution fails with a `ParseError` — `to_string` keeps the JSON
quotes, so the text `"42.5"` (with quotes) is not a parseable float — rather
than returning 42.5 as the claim states. -/
theorem C8_numeric_string_counterexample :
    Sensor.get_value
        ⟨"t".toList, none, none, none, none, none, .sensors, ["a".toList, "b".toList]⟩
        (JsonValue.obj [("a".toList,
          JsonValue.obj [("b".toList, JsonValue.str "42.5".toList)])])
        noFs
      = .error KErr.parseError
    ∧ (Except.error KErr.parseError : Except KErr F32) ≠ .ok (F32.fin (85 / 2)) := by
  exact ⟨by decide, by decide⟩

/-- Claim C8, amended: for every JSON-backed sensor whose path resolves to a
string leaf — even a numeric string such as `"42.5"` — resolution fails with
a `ParseError`, because the leaf's textual form is its JSON serialization
including the surrounding quotes. -/
theorem C8_string_leaf_parse_error (sen : Sensor) (snap : JsonValue)
    (fs : List Str → Option Str) (leaf : Str)
    (hsrc : sen.source = SensorSource.sensors)
    (hpath : get_by_path snap sen.path = some (JsonValue.str leaf)) :
    sen.get_value snap fs = .error KErr.parseError := by
  have hq : ('"' : Char).isDigit = false := by decide
  have hfloat : parseFloat ('"' :: (escapeStr leaf ++ ['"'])) = none := by
    simp only [parseFloat]
    rw [if_neg (by decide), if_neg (by decide)]
    simp only [parseDec, List.takeWhile_cons, List.dropWhile_cons, hq, Bool.false_eq_true,
      if_false, reduceCtorEq]
    rw [if_neg (by decide)]
  simp only [Sensor.get_value, hsrc, hpath, JsonValue.toStr, hfloat]

/-- Witness for C8: concrete instance of the amended claim, snapshot
`{"a":"42.5"}` with path `a`. -/
theorem C8_string_leaf_parse_error_witness :
    Sensor.get_value
        ⟨"s".toList, none, none, none, none, none, .sensors, ["a".toList]⟩
        (JsonValue.obj [("a".toList, JsonValue.str "42.5".toList)]) noFs
      = .error KErr.parseError :=
  C8_string_leaf_parse_error _ _ noFs ("42.5".toList) rfl rfl

/-! ## Widget construction and the main prologue (main.rs:163-260) -/

/-- `format_var` (main.rs:163-166): wrap a name in braces to form its
template token. -/
def format_var (var : Str) : Str := '\x7b' :: (var ++ ['\x7d'])

/-- Prefix test used by substring containment. -/
def startsWith : Str → Str → Bool
  | _, [] => true
  | [], _ :: _ => false
  | h :: hs, n :: ns => h == n && startsWith hs ns

/-- Rust `str::contains(&str)`: substring containment. -/
def containsSub : Str → Str → Bool
  | [], needle => needle.isEmpty
  | h :: t, needle => startsWith (h :: t) needle || containsSub t needle

/-- The widgets main.rs builds (main.rs:143-175): a sensor-backed widget, the
time widget, the CPU-usage widget, and the fixed-text dummy used for
`cpu_usage` in `--once` mode. -/
inductive WidgetI where
  | sensorW (s : Sensor)
  | timeW
  | cpuW
  | dummyW (text : Str)
deriving DecidableEq

/-- `HashMap::insert` on the widget map, modelled as an association list:
replace the value of an existing key, else append.  Iteration order of the
real `HashMap` is arbitrary; only membership matters to the claims. -/
def insertW (ws : List (Str × WidgetI)) (k : Str) (w : WidgetI) : List (Str × WidgetI) :=
  if ws.any (fun p => decide (p.1 = k)) then ws.map (fun p => if p.1 = k then (k, w) else p)
  else ws ++ [(k, w)]

/-- One step of the sensor-widget loop (main.rs:225-230): a sensor's widget
is inserted only when its token occurs in the template string. -/
def sensorStep (format : Str) (ws : List (Str × WidgetI)) (sensor : Sensor) :
    List (Str × WidgetI) :=
  if containsSub format (format_var sensor.name) then
    insertW ws (format_var sensor.name) (WidgetI.sensorW sensor)
  else ws

/-- The sensor widgets created for a template (main.rs:225-230). -/
def sensorWidgets (format : Str) (sensors : List Sensor) : List (Str × WidgetI) :=
  sensors.foldl (sensorStep format) []

/-- Shallow embedding of the widget-construction block (main.rs:219-246):
sensor widgets for referenced sensors, then the `time` widget and the
`cpu_usage` widget (a `"??"` dummy in `--once` mode) when their tokens
occur. -/
def mkWidgets (format : Str) (sensors : List Sensor) (once : Bool) : List (Str × WidgetI) :=
  let ws := sensorWidgets format sensors
  let ws :=
    if containsSub format (format_var "time".toList) then
      insertW ws (format_var "time".toList) WidgetI.timeW
    else ws
  if containsSub format (format_var "cpu_usage".toList) then
    insertW ws (format_var "cpu_usage".toList)
      (if once then WidgetI.dummyW "??".toList else WidgetI.cpuW)
  else ws

/-- The sensors whose sources `update_format` (main.rs:248-255) resolves in a
tick: exactly the sensors held by widgets in the map — each widget's
`value()` is called once, and a `SensorWidget`'s `value()` calls
`Sensor::get_value` (main.rs:148-152). -/
def tickResolved (ws : List (Str × WidgetI)) : List Sensor :=
  ws.filterMap (fun p =>
    match p.2 with
    | WidgetI.sensorW s => some s
    | _ => none)

theorem insertW_mem_snd {ws : List (Str × WidgetI)} {k : Str} {w x : WidgetI}
    (h : x ∈ (insertW ws k w).map Prod.snd) : x ∈ ws.map Prod.snd ∨ x = w := by
  unfold insertW at h
  by_cases hc : ws.any (fun p => decide (p.1 = k))
  · rw [if_pos hc] at h
    rcases List.mem_map.mp h with ⟨p, hp, hpx⟩
    rcases List.mem_map.mp hp with ⟨q, hq, hqp⟩
    by_cases hk : q.1 = k
    · right
      rw [← hpx, ← hqp, if_pos hk]
    · left
      rw [← hpx, ← hqp, if_neg hk]
      exact List.mem_map.mpr ⟨q, hq, rfl⟩
  · rw [if_neg hc, List.map_append] at h
    rcases List.mem_append.mp h with h1 | h2
    · exact Or.inl h1
    · right
      simpa using h2

theorem sensorWidgets_mem_snd {format : Str} {s : Sensor} :
    ∀ (sensors : List Sensor) (acc : List (Str × WidgetI)),
      WidgetI.sensorW s ∈ (sensors.foldl (sensorStep format) acc).map Prod.snd →
      WidgetI.sensorW s ∈ acc.map Prod.snd
        ∨ containsSub format (format_var s.name) = true := by
  intro sensors
  induction sensors with
  | nil => intro acc h; exact Or.inl h
  | cons a as ih =>
      intro acc h
      rcases ih (sensorStep format acc a) h with h1 | h2
      · unfold sensorStep at h1
        by_cases hc : containsSub format (format_var a.name) = true
        · rw [if_pos hc] at h1
          rcases insertW_mem_snd h1 with h3 | h4
          · exact Or.inl h3
          · right
            cases h4
            exact hc
        · rw [if_neg hc] at h1
          exact Or.inl h1
      · exact Or.inr h2

theorem mkWidgets_sensor_mem {format : Str} {sensors : List Sensor} {once : Bool} {s : Sensor}
    (h : WidgetI.sensorW s ∈ (mkWidgets format sensors once).map Prod.snd) :
    containsSub format (format_var s.name) = true := by
  unfold mkWidgets at h
  simp only at h
  have step2 :
      WidgetI.sensorW s ∈
        (if containsSub format (format_var "time".toList) then
          insertW (sensorWidgets format sensors) (format_var "time".toList) WidgetI.timeW
        else sensorWidgets format sensors).map Prod.snd := by
    by_cases hc : containsSub format (format_var "cpu_usage".toList) = true
    · rw [if_pos hc] at h
      rcases insertW_mem_snd h with h1 | h2
      · exact h1
      · cases honce : once <;> rw [honce] at h2 <;> exact absurd h2 (by simp)
    · rwa [if_neg hc] at h
  have step1 : WidgetI.sensorW s ∈ (sensorWidgets format sensors).map Prod.snd := by
    by_cases hc : containsSub format (format_var "time".toList) = true
    · rw [if_pos hc] at step2
      rcases insertW_mem_snd step2 with h1 | h2
      · exact h1
      · exact absurd h2 (by simp)
    · rwa [if_neg hc] at step2
  rcases sensorWidgets_mem_snd sensors [] step1 with h1 | h2
  · simp at h1
  · exact h2

theorem tickResolved_mem {ws : List (Str × WidgetI)} {s : Sensor}
    (h : s ∈ tickResolved ws) : WidgetI.sensorW s ∈ ws.map Prod.snd := by
  unfold tickResolved at h
  rcases List.mem_filterMap.mp h with ⟨p, hp, hps⟩
  have : p.2 = WidgetI.sensorW s := by
    cases hw : p.2 <;> rw [hw] at hps <;> simp at hps
    rw [hps]
  rw [← this]
  exact List.mem_map.mpr ⟨p, hp, rfl⟩

/-- Claim C3: a configured sensor whose token `\x7bname\x7d` does not occur
in the template string is never inserted into the widget map, so
`update_format` never resolves its source — its file is never read and its
JSON path is never looked up — on any tick. -/
theorem C3_unreferenced_sensor_not_resolved (format : Str) (sensors : List Sensor)
    (once : Bool) (s : Sensor)
    (h : containsSub format (format_var s.name) = false) :
    s ∉ tickResolved (mkWidgets format sensors once) := by
  intro hmem
  have := mkWidgets_sensor_mem (tickResolved_mem hmem)
  rw [h] at this
  exact absurd this (by simp)

/-- Witness for C3: the sensor `temp` is not referenced by the template
`cpu: \x7bcpu_usage\x7d` and is therefore not resolved. -/
theorem C3_unreferenced_sensor_not_resolved_witness :
    containsSub ("cpu: \x7bcpu_usage\x7d".toList) (format_var "temp".toList) = false
    ∧ (⟨"temp".toList, none, none, none, none, none, SensorSource.sensors, ["a".toList]⟩ : Sensor)
        ∉ tickResolved (mkWidgets ("cpu: \x7bcpu_usage\x7d".toList)
            [⟨"temp".toList, none, none, none, none, none, SensorSource.sensors, ["a".toList]⟩]
            false) :=
  ⟨by decide,
    C3_unreferenced_sensor_not_resolved ("cpu: \x7bcpu_usage\x7d".toList)
      [⟨"temp".toList, none, none, none, none, none, SensorSource.sensors, ["a".toList]⟩]
      false
      ⟨"temp".toList, none, none, none, none, none, SensorSource.sensors, ["a".toList]⟩
      (by decide)⟩

/-- Command-line flags, with the fields main.rs reads (`kill`, `daemon`,
`once`, `no_format`; the `config` path option is consumed before our model's
entry point).  The cli.rs in this snapshot declares only `config`; the flag
fields are modelled from their use sites in main.rs (193/198/210/239/259). -/
structure Cli where
  config : Option Str
  kill : Bool
  daemon : Bool
  once : Bool
  no_format : Bool
deriving DecidableEq

/-- The resolved configuration (config.rs:151-167); `poll_rate` is a `u16`
in milliseconds. -/
structure Config where
  format : Option Str
  poll_rate : ℕ
  sensors : List Sensor
deriving DecidableEq

/-- Externally observable actions of the main prologue. -/
inductive MainAction where
  | fetchSnapshot
deriving DecidableEq

/-- Ways the main prologue stops before reaching the render stage:
`bail` is `anyhow::bail!` (process exits with the message), `todoPanic` is a
`todo!()` panic. -/
inductive MainErr where
  | bail (msg : Str)
  | todoPanic
deriving DecidableEq

/-- `MINIMAL_POLL_RATE` (main.rs:177). -/
def MINIMAL_POLL_RATE : ℕ := 1000

/-- The message of the poll-rate bail (main.rs:190), with
`MINIMAL_POLL_RATE` already interpolated. -/
def pollRateMsg : Str := "Poll rate must be at least 1000ms".toList

/-- Shallow embedding of `main` (main.rs:180-246) up to widget construction,
with the action trace it produces: the poll-rate guard (189-191), the
`todo!()` stubs for `--kill`/`--daemon` (193-200), the snapshot fetch
`get_temps()` (206, assumed to succeed), the `todo!()` for verbose listing
(209-212), then widget construction (219-246).  Sensor resolution only ever
happens after a successful prologue, via the returned widget map. -/
def mainPrologue (args : Cli) (config : Config) :
    List MainAction × Except MainErr (List (Str × WidgetI)) :=
  if config.poll_rate < MINIMAL_POLL_RATE then ([], .error (.bail pollRateMsg))
  else if args.kill then ([], .error .todoPanic)
  else if args.daemon then ([], .error .todoPanic)
  else if args.no_format || config.format.isNone then
    ([MainAction.fetchSnapshot], .error .todoPanic)
  else
    ([MainAction.fetchSnapshot], .ok (mkWidgets (config.format.getD []) config.sensors args.once))

/-- Claim C4: with no template configured (first conjunct) or with verbose
listing explicitly forced via `no_format` (second conjunct), the program does
not produce one line per sensor — it hits the `todo!()` at main.rs:209-212
and panics with `not yet implemented`, after fetching the snapshot. -/
theorem C4_verbose_listing_unimplemented :
    mainPrologue ⟨none, false, false, false, false⟩
        ⟨none, 1000,
          [⟨"a".toList, none, none, none, none, none, SensorSource.sensors, ["a".toList]⟩,
           ⟨"b".toList, none, none, none, none, none, SensorSource.sensors, ["b".toList]⟩]⟩
      = ([MainAction.fetchSnapshot], .error MainErr.todoPanic)
    ∧ mainPrologue ⟨none, false, false, false, true⟩ ⟨some ("x".toList), 1000, []⟩
      = ([MainAction.fetchSnapshot], .error MainErr.todoPanic) := by
  exact ⟨by decide, by decide⟩

/-- Claim C10: whenever the configured poll rate is below 1000 ms, the
program bails out with `Poll rate must be at least 1000ms` immediately: the
action trace is empty — no snapshot is fetched — and no widget map is ever
built, so no sensor is resolved. -/
theorem C10_poll_rate_guard (args : Cli) (config : Config)
    (h : config.poll_rate < MINIMAL_POLL_RATE) :
    mainPrologue args config = ([], .error (.bail pollRateMsg)) := by
  simp [mainPrologue, h]

/-- Witness for C10: a 500 ms poll rate bails out before any action. -/
theorem C10_poll_rate_guard_witness :
    mainPrologue ⟨none, false, false, false, false⟩ ⟨none, 500, []⟩
      = ([], .error (.bail pollRateMsg)) :=
  C10_poll_rate_guard ⟨none, false, false, false, false⟩ ⟨none, 500, []⟩ (by decide)
